import Mathlib

/-!
Shallow embedding of `src/src/plugins/3dr_radio.cpp` (mavros 3DR radio status
plugin) and proofs about its link-quality tracker.

Modelling choices:
* The `uint8`/`uint16` payload fields are modelled as `Nat`: the code copies
  them field-for-field and compares them, it never performs arithmetic on them
  that could wrap.
* The C++ member functions mutate the object under a recursive mutex; they are
  embedded as pure state-passing functions, the mutex being modelled as the
  serialization of the operations (each call is one atomic step).
* `diagnostic_updater::DiagnosticStatusWrapper` is modelled by the summary
  level, the summary message and the ordered list of key/value pairs that
  `stat.summary` / `stat.addf` produce.  A `%u`-formatted value is kept as the
  natural number, a `%.1f`-formatted value as the exact rational the C double
  expression denotes (the dBm conversion `x / 1.9 - 127` is exact over `Rat`).
* `ROS_WARN_THROTTLE_NAMED` is modelled as a boolean "a warning was emitted"
  flag; `status_pub.publish` as the published message value (its header
  timestamp, real wall-clock time, is outside the model).
-/

/-- The seven telemetry fields of `mavlink_radio_status_t` (RADIO_STATUS
payload): rssi, remrssi, txbuf, noise, remnoise are `uint8`, rxerrors and
fixed are `uint16`; all opaque raw modem units. -/
structure mavlink_radio_status_t where
  rssi : Nat
  remrssi : Nat
  txbuf : Nat
  noise : Nat
  remnoise : Nat
  rxerrors : Nat
  fixed : Nat
  deriving DecidableEq, Repr

/-- The legacy RADIO payload `mavlink_radio_t` carries the same seven fields
under the same names (the C++ handler is one template instantiated at both
types and reads exactly these fields). -/
abbrev mavlink_radio_t := mavlink_radio_status_t

/-- The value-initialized `mavlink_radio_status_t` (the C++ member initializer
`last_rst{}` zeroes every field). -/
def zero_rst : mavlink_radio_status_t :=
  { rssi := 0, remrssi := 0, txbuf := 0, noise := 0, remnoise := 0,
    rxerrors := 0, fixed := 0 }

/-- State of the `TDRRadioStatus` diagnostic task: the task name passed to the
`DiagnosticTask` base, the `data_received` flag, the configured `low_rssi`
threshold (a `const` member) and the last received sample `last_rst`. -/
structure TDRRadioStatus where
  task_name : String
  data_received : Bool
  low_rssi : Nat
  last_rst : mavlink_radio_status_t
  deriving DecidableEq, Repr

/-- Constructor `TDRRadioStatus(name, _low_rssi)`: `data_received(false)`,
`low_rssi(_low_rssi)`, `last_rst{}` (zero-initialized). -/
def TDRRadioStatus.init (name : String) (low : Nat) : TDRRadioStatus :=
  { task_name := name, data_received := false, low_rssi := low,
    last_rst := zero_rst }

/-- Member `set(rst)`: under the mutex, set `data_received = true` and copy all
seven fields of `rst` into `last_rst` (the `RST_COPY` macro block). -/
def TDRRadioStatus.set (st : TDRRadioStatus) (rst : mavlink_radio_status_t) :
    TDRRadioStatus :=
  { st with
    data_received := true,
    last_rst :=
      { rssi := rst.rssi, remrssi := rst.remrssi, txbuf := rst.txbuf,
        noise := rst.noise, remnoise := rst.remnoise,
        rxerrors := rst.rxerrors, fixed := rst.fixed } }

/-- A value rendered by `stat.addf`: `u n` for a `%u`-formatted integer,
`f1 q` for a `%.1f`-formatted float, kept as the exact rational value. -/
inductive DiagValue where
  | u (n : Nat)
  | f1 (q : Rat)
  deriving DecidableEq, Repr

/-- The observable content of a `DiagnosticStatusWrapper` after `run`:
the summary level and message set by `stat.summary`, and the ordered key/value
pairs appended by `stat.addf`. -/
structure DiagnosticStatusWrapper where
  level : Nat
  message : String
  values : List (String × DiagValue)
  deriving DecidableEq, Repr

/-- Member `run(stat)`: under the mutex, pick the summary by first match
(`No data` / `Low RSSI` / `Low remote RSSI` / `Normal`), compute the dBm
conversions `rssi / 1.9 - 127`, and append the nine labeled values in the
fixed order of the source.  Returned as (produced wrapper, object state after
the call): `run` only reads the object, so the state component is the input
state unchanged. -/
def TDRRadioStatus.run (st : TDRRadioStatus) :
    DiagnosticStatusWrapper × TDRRadioStatus :=
  let summary : Nat × String :=
    if st.data_received = false then (2, "No data")
    else if st.last_rst.rssi < st.low_rssi then (1, "Low RSSI")
    else if st.last_rst.remrssi < st.low_rssi then (1, "Low remote RSSI")
    else (0, "Normal")
  let rssi_dbm : Rat := (st.last_rst.rssi : Rat) / 1.9 - 127
  let remrssi_dbm : Rat := (st.last_rst.remrssi : Rat) / 1.9 - 127
  ({ level := summary.1, message := summary.2,
     values :=
      [("RSSI", DiagValue.u st.last_rst.rssi),
       ("RSSI (dBm)", DiagValue.f1 rssi_dbm),
       ("Remote RSSI", DiagValue.u st.last_rst.remrssi),
       ("Remote RSSI (dBm)", DiagValue.f1 remrssi_dbm),
       ("Tx buffer (%)", DiagValue.u st.last_rst.txbuf),
       ("Noice level", DiagValue.u st.last_rst.noise),
       ("Remote noice level", DiagValue.u st.last_rst.remnoise),
       ("Rx errors", DiagValue.u st.last_rst.rxerrors),
       ("Fixed", DiagValue.u st.last_rst.fixed)] },
   st)

/-- One serialized operation on the tracker: an `update` (the `set` member,
called from the message handler) or a `render` (the `run` member, called by
the diagnostic updater). -/
inductive TrackerOp where
  | update (rst : mavlink_radio_status_t)
  | render
  deriving DecidableEq, Repr

/-- Whether a tracker operation is an update. -/
def TrackerOp.isUpdate : TrackerOp → Bool
  | .update _ => true
  | .render => false

/-- The state transition of one serialized tracker operation (the mutex makes
each member call atomic; `run` returns its state component). -/
def TDRRadioStatus.step (st : TDRRadioStatus) : TrackerOp → TDRRadioStatus
  | .update rst => st.set rst
  | .render => (st.run).2

/-- The samples of the update operations of a trace, in order. -/
def updSamples : List TrackerOp → List mavlink_radio_status_t
  | [] => []
  | TrackerOp.update rst :: ops => rst :: updSamples ops
  | TrackerOp.render :: ops => updSamples ops

/-- The published `mavros::RadioStatus` message: the seven canonical fields
(the header timestamp is outside the model). -/
structure RadioStatus where
  rssi : Nat
  remrssi : Nat
  txbuf : Nat
  noise : Nat
  remnoise : Nat
  rxerrors : Nat
  fixed : Nat
  deriving DecidableEq, Repr

/-- State of the `TDRRadioPlugin`: the diagnostic task and the
`has_radio_status` latch. -/
structure TDRRadioPlugin where
  tdr_diag : TDRRadioStatus
  has_radio_status : Bool
  deriving DecidableEq, Repr

/-- Constructor `TDRRadioPlugin()`: `tdr_diag("3DR Radio", 40)`,
`has_radio_status(false)`. -/
def TDRRadioPlugin.mkNew : TDRRadioPlugin :=
  { tdr_diag := TDRRadioStatus.init "3DR Radio" 40, has_radio_status := false }

/-- Result of `handle_message`: the plugin state after the call, the message
published on `radio_status`, and whether the provenance warning was logged. -/
structure HandleResult where
  self : TDRRadioPlugin
  published : RadioStatus
  warned : Bool
  deriving DecidableEq, Repr

/-- Member template `handle_message(rst, sysid, compid)`: warn (rate-limited
log only) when the sender is not `sysid = 51` (ASCII of the character 3) and
`compid = 68` (ASCII of D), then unconditionally `tdr_diag.set(rst)` and
publish a `RadioStatus` message copying the seven fields. -/
def TDRRadioPlugin.handle_message (self : TDRRadioPlugin)
    (rst : mavlink_radio_status_t) (sysid compid : Nat) : HandleResult :=
  { self := { self with tdr_diag := self.tdr_diag.set rst },
    published :=
      { rssi := rst.rssi, remrssi := rst.remrssi, txbuf := rst.txbuf,
        noise := rst.noise, remnoise := rst.remnoise,
        rxerrors := rst.rxerrors, fixed := rst.fixed },
    warned := decide (sysid ≠ 51 ∨ compid ≠ 68) }

/-- An inbound mavlink message of one of the two supported types, already
decoded to its payload (the decode calls are pure field copies). -/
inductive MavlinkMessage where
  | radio_status (rst : mavlink_radio_status_t)
  | radio (rst : mavlink_radio_t)
  deriving DecidableEq, Repr

/-- Whether a message is of the preferred RADIO_STATUS type. -/
def MavlinkMessage.isRadioStatus : MavlinkMessage → Bool
  | .radio_status _ => true
  | .radio _ => false

/-- Result of `message_rx_cb`: the plugin state after the call, the message
published if any, and whether the provenance warning was logged. -/
structure RxResult where
  self : TDRRadioPlugin
  published : Option RadioStatus
  warned : Bool
  deriving DecidableEq, Repr

/-- Member `message_rx_cb(msg, sysid, compid)`: on RADIO_STATUS set the
`has_radio_status` latch and handle the payload; on legacy RADIO return early
when the latch is set, otherwise handle the payload. -/
def TDRRadioPlugin.message_rx_cb (self : TDRRadioPlugin) (msg : MavlinkMessage)
    (sysid compid : Nat) : RxResult :=
  match msg with
  | .radio_status rst =>
      let self1 := { self with has_radio_status := true }
      let r := self1.handle_message rst sysid compid
      { self := r.self, published := some r.published, warned := r.warned }
  | .radio rst =>
      if self.has_radio_status then
        { self := self, published := none, warned := false }
      else
        let r := self.handle_message rst sysid compid
        { self := r.self, published := some r.published, warned := r.warned }

/-- An inbound event: a decoded message with its sender ids. -/
structure RxEvent where
  msg : MavlinkMessage
  sysid : Nat
  compid : Nat
  deriving DecidableEq, Repr

/-- The plugin state transition of one inbound event. -/
def TDRRadioPlugin.step (self : TDRRadioPlugin) (e : RxEvent) : TDRRadioPlugin :=
  (self.message_rx_cb e.msg e.sysid e.compid).self

/-! Helper lemmas (shared facts about traces of operations). -/

/-- One inbound event sets the latch exactly when the event is a
RADIO_STATUS message; it never clears it. -/
theorem TDRRadioPlugin.step_has_radio_status (self : TDRRadioPlugin) (e : RxEvent) :
    (self.step e).has_radio_status = (self.has_radio_status || e.msg.isRadioStatus) := by
  rcases e with ⟨msg, sysid, compid⟩
  cases msg with
  | radio_status rst =>
      simp [TDRRadioPlugin.step, TDRRadioPlugin.message_rx_cb,
        TDRRadioPlugin.handle_message, MavlinkMessage.isRadioStatus]
  | radio rst =>
      by_cases h : self.has_radio_status <;>
        simp [TDRRadioPlugin.step, TDRRadioPlugin.message_rx_cb,
          TDRRadioPlugin.handle_message, MavlinkMessage.isRadioStatus, h]

/-- Over any trace of inbound events, the latch holds exactly when it held
initially or some event was a RADIO_STATUS message. -/
theorem TDRRadioPlugin.foldl_step_has_radio_status (events : List RxEvent)
    (self : TDRRadioPlugin) :
    (events.foldl TDRRadioPlugin.step self).has_radio_status =
      (self.has_radio_status || events.any fun e => e.msg.isRadioStatus) := by
  induction events generalizing self with
  | nil => simp
  | cons e es ih =>
      rw [List.foldl_cons, ih, List.any_cons, TDRRadioPlugin.step_has_radio_status,
        Bool.or_assoc]

/-- One tracker operation sets `data_received` exactly when it is an update;
no operation clears it. -/
theorem TDRRadioStatus.step_data_received (st : TDRRadioStatus) (op : TrackerOp) :
    (st.step op).data_received = (st.data_received || op.isUpdate) := by
  cases op with
  | update rst => simp [TDRRadioStatus.step, TDRRadioStatus.set, TrackerOp.isUpdate]
  | render => simp [TDRRadioStatus.step, TDRRadioStatus.run, TrackerOp.isUpdate]

/-- Over any trace of tracker operations, `data_received` holds exactly when
it held initially or the trace contains an update. -/
theorem TDRRadioStatus.foldl_step_data_received (ops : List TrackerOp)
    (st : TDRRadioStatus) :
    (ops.foldl TDRRadioStatus.step st).data_received =
      (st.data_received || ops.any TrackerOp.isUpdate) := by
  induction ops generalizing st with
  | nil => simp
  | cons op ops ih =>
      rw [List.foldl_cons, ih, List.any_cons, TDRRadioStatus.step_data_received,
        Bool.or_assoc]

/-- Over any trace of tracker operations, the stored sample is the sample of
the last update of the trace, or the initial stored sample when the trace has
no update. -/
theorem TDRRadioStatus.foldl_step_last_rst (ops : List TrackerOp) (st : TDRRadioStatus) :
    (ops.foldl TDRRadioStatus.step st).last_rst = (updSamples ops).getLastD st.last_rst := by
  induction ops generalizing st with
  | nil => rfl
  | cons op ops ih =>
      cases op with
      | update rst =>
          rw [List.foldl_cons, ih]
          show (updSamples ops).getLastD rst = (rst :: updSamples ops).getLastD st.last_rst
          rw [List.getLastD_cons]
      | render =>
          rw [List.foldl_cons, ih]
          rfl

/-- The last element with default of a list is a member of the list, unless
the list is empty. -/
theorem getLastD_mem_or_nil {α : Type} (l : List α) (d : α) :
    l.getLastD d ∈ l ∨ l = [] := by
  cases l with
  | nil => right; rfl
  | cons a l => left; rw [List.getLastD_cons]; exact List.getLastD_mem_cons l a

/-! The claims. -/

/-- Claim C1: `run` chooses its summary by first-match priority: with no data
it reports level 2 "No data" regardless of the threshold, otherwise low local
RSSI is checked before low remote RSSI, and only then "Normal"; in particular
with threshold 40 the sample (rssi 30, remrssi 50) reports "Low RSSI", never
"Low remote RSSI", (rssi 50, remrssi 30) reports "Low remote RSSI", and
(rssi 50, remrssi 50) reports "Normal". -/
theorem C1_summary_first_match_priority (st : TDRRadioStatus) (name : String)
    (low : Nat) :
    ((st.run).1.level, (st.run).1.message) =
      (if st.data_received = false then ((2 : Nat), "No data")
       else if st.last_rst.rssi < st.low_rssi then (1, "Low RSSI")
       else if st.last_rst.remrssi < st.low_rssi then (1, "Low remote RSSI")
       else (0, "Normal"))
    ∧ ((TDRRadioStatus.init name low).run).1.level = 2
    ∧ ((TDRRadioStatus.init name low).run).1.message = "No data"
    ∧ (((TDRRadioStatus.init name 40).set ⟨30, 50, 0, 0, 0, 0, 0⟩).run).1.message
        = "Low RSSI"
    ∧ (((TDRRadioStatus.init name 40).set ⟨50, 30, 0, 0, 0, 0, 0⟩).run).1.message
        = "Low remote RSSI"
    ∧ (((TDRRadioStatus.init name 40).set ⟨50, 50, 0, 0, 0, 0, 0⟩).run).1.message
        = "Normal" := by
  refine ⟨?_, rfl, rfl, rfl, rfl, rfl⟩
  rcases st with ⟨nm, d, lo, rst⟩
  cases d <;> simp [TDRRadioStatus.run]

/-- Claim C2: once a RADIO_STATUS message has been processed the
`has_radio_status` latch is set; a subsequent legacy RADIO message is then
ignored (state unchanged, nothing published, no warning logged), and over any
further trace of inbound events the latch never resets. -/
theorem C2_legacy_suppressed_after_latch (self : TDRRadioPlugin)
    (rst : mavlink_radio_t) (sysid compid : Nat) (events : List RxEvent) :
    ({ self with has_radio_status := true } : TDRRadioPlugin).message_rx_cb
        (MavlinkMessage.radio rst) sysid compid =
      { self := { self with has_radio_status := true },
        published := none, warned := false }
    ∧ (events.foldl TDRRadioPlugin.step
        { self with has_radio_status := true }).has_radio_status = true := by
  refine ⟨rfl, ?_⟩
  rw [TDRRadioPlugin.foldl_step_has_radio_status]
  simp

/-- Claim C3: `set` marks data received, overwrites all seven fields of the
stored sample with the input, leaves the threshold (and the task name)
unchanged, and a `run` immediately after `set` produces a report depending
only on the new sample and the threshold, with no residual state from any
prior sample (the report equals the one of a freshly constructed tracker
updated with the same sample). -/
theorem C3_update_overwrites_and_render_is_pure (st : TDRRadioStatus)
    (rst : mavlink_radio_status_t) :
    st.set rst =
      { task_name := st.task_name, data_received := true,
        low_rssi := st.low_rssi, last_rst := rst }
    ∧ ((st.set rst).run).1 =
        (((TDRRadioStatus.init st.task_name st.low_rssi).set rst).run).1 :=
  ⟨rfl, rfl⟩

/-- Claim C4: the report's derived values are exactly
`rssi / 1.9 - 127` and the same formula applied to `remrssi`; at rssi 100 the
value is -1413/19, within 1/100 of -74.37. -/
theorem C4_dbm_conversion (st : TDRRadioStatus) :
    (st.run).1.values[1]? =
      some ("RSSI (dBm)", DiagValue.f1 ((st.last_rst.rssi : Rat) / 1.9 - 127))
    ∧ (st.run).1.values[3]? =
      some ("Remote RSSI (dBm)",
        DiagValue.f1 ((st.last_rst.remrssi : Rat) / 1.9 - 127))
    ∧ (((TDRRadioStatus.init "3DR Radio" 40).set
        ⟨100, 0, 0, 0, 0, 0, 0⟩).run).1.values[1]? =
      some ("RSSI (dBm)", DiagValue.f1 (-1413 / 19))
    ∧ |(-1413 / 19 : Rat) - (-7437 / 100)| < 1 / 100 := by
  refine ⟨rfl, rfl, ?_, by rw [abs_sub_lt_iff]; norm_num⟩
  norm_num [TDRRadioStatus.run, TDRRadioStatus.set, TDRRadioStatus.init]

/-- Claim C5: a sender identity other than sysid 51, compid 68 only sets the
warning flag: the plugin state after `handle_message` and the published
message are exactly those of a matching sender, the tracker update proceeds
unconditionally, and the function is total (no failure is representable). -/
theorem C5_provenance_mismatch_only_warns (self : TDRRadioPlugin)
    (rst : mavlink_radio_status_t) (sysid compid : Nat) :
    (self.handle_message rst sysid compid).self = (self.handle_message rst 51 68).self
    ∧ (self.handle_message rst sysid compid).published
        = (self.handle_message rst 51 68).published
    ∧ (self.handle_message rst sysid compid).self
        = { self with tdr_diag := self.tdr_diag.set rst }
    ∧ (self.handle_message rst sysid compid).warned
        = decide (sysid ≠ 51 ∨ compid ≠ 68)
    ∧ (self.handle_message rst 51 68).warned = false :=
  ⟨rfl, rfl, rfl, rfl, rfl⟩

/-- Claim C6: the tracker's `data_received` flag starts false, every `set`
makes it true, `run` leaves the whole state unchanged, and over any trace of
operations the flag holds exactly when it held initially or the trace contains
an update: the NoData to HasData transition is one-way and HasData is
absorbing. -/
theorem C6_hasdata_latch_absorbing (name : String) (low : Nat)
    (st : TDRRadioStatus) (rst : mavlink_radio_status_t) (ops : List TrackerOp) :
    (TDRRadioStatus.init name low).data_received = false
    ∧ (st.set rst).data_received = true
    ∧ (st.run).2 = st
    ∧ (ops.foldl TDRRadioStatus.step st).data_received
        = (st.data_received || ops.any TrackerOp.isUpdate) :=
  ⟨rfl, rfl, rfl, TDRRadioStatus.foldl_step_data_received ops st⟩

/-- Claim C7: `run` is a pure reader: it returns the tracker state unchanged,
and a second `run` with no intervening `set` produces an identical report. -/
theorem C7_render_idempotent_pure (st : TDRRadioStatus) :
    (st.run).2 = st ∧ (((st.run).2).run).1 = (st.run).1 :=
  ⟨rfl, rfl⟩

/-- Claim C8 as stated is false: the label strings the code writes differ from
the claimed list (the code writes "RSSI (dBm)", "Tx buffer (%)",
"Noice level", "Remote noice level" and "Fixed"). -/
theorem C8_label_list_counterexample :
    ((TDRRadioPlugin.mkNew.tdr_diag).run).1.values.map Prod.fst ≠
      ["RSSI", "RSSI(dBm)", "Remote RSSI", "Remote RSSI(dBm)", "Tx buffer %",
       "Noise", "Remote noise", "Rx errors", "Fixed-error count"] := by
  decide

/-- Claim C8 amended: every report renders the nine key/value pairs in the
claimed fixed order, with the labels the code actually writes: RSSI,
RSSI (dBm), Remote RSSI, Remote RSSI (dBm), Tx buffer (%), Noice level,
Remote noice level, Rx errors, Fixed. -/
theorem C8_labels_fixed_order (st : TDRRadioStatus) :
    (st.run).1.values.map Prod.fst =
      ["RSSI", "RSSI (dBm)", "Remote RSSI", "Remote RSSI (dBm)",
       "Tx buffer (%)", "Noice level", "Remote noice level", "Rx errors",
       "Fixed"] :=
  rfl

/-- Claim C9: with the mutex modelled as serializing the operations, after any
trace of updates and renders the stored sample a render observes is exactly
the complete sample of the last update of the trace (or the zero-initialized
sample when no update occurred): a whole record written by one single update,
never a mix of fields from two updates. -/
theorem C9_render_atomic_snapshot (name : String) (low : Nat)
    (ops : List TrackerOp) :
    (ops.foldl TDRRadioStatus.step (TDRRadioStatus.init name low)).last_rst
        = (updSamples ops).getLastD zero_rst
    ∧ ((ops.foldl TDRRadioStatus.step (TDRRadioStatus.init name low)).last_rst
          ∈ updSamples ops
        ∨ updSamples ops = []) := by
  rw [TDRRadioStatus.foldl_step_last_rst]
  exact ⟨rfl, getLastD_mem_or_nil _ _⟩

/-- Claim C10: before any update, `run` still emits the full report: summary
level 2 "No data" and all nine key/value pairs computed from the
zero-initialized sample, the dBm entries being 0 / 1.9 - 127 = -127. -/
theorem C10_nodata_report_complete :
    ((TDRRadioStatus.init "3DR Radio" 40).run).1 =
      { level := 2, message := "No data",
        values :=
          [("RSSI", DiagValue.u 0), ("RSSI (dBm)", DiagValue.f1 (-127)),
           ("Remote RSSI", DiagValue.u 0),
           ("Remote RSSI (dBm)", DiagValue.f1 (-127)),
           ("Tx buffer (%)", DiagValue.u 0), ("Noice level", DiagValue.u 0),
           ("Remote noice level", DiagValue.u 0), ("Rx errors", DiagValue.u 0),
           ("Fixed", DiagValue.u 0)] }
    ∧ ((TDRRadioStatus.init "3DR Radio" 40).run).1.values.length = 9
    ∧ ((0 : Rat) / 1.9 - 127 = -127) := by
  refine ⟨?_, rfl, by norm_num⟩
  norm_num [TDRRadioStatus.run, TDRRadioStatus.init, zero_rst]
